import Mathlib

/-
  Verification development for the Porrima repository (src/porrima.py).

  The single Python source file implements a command-line chatbot with a
  wallet registry.  We give a shallow embedding: module-level mutable state
  (the wallets dict, the current_wallet pointer, the content cache) becomes
  an explicit state record threaded through a step function; every external
  effect (Solana RPC client, HTTP fetches, the DeepSeek endpoint, getpass,
  the 2FA prompt) is an oracle field of an environment record; logging and
  print calls become explicit output lists; Python exceptions become
  explicit error results that the top of the command loop converts to a
  printed message, exactly as the except clause at the bottom of chatbot
  does in the source.
-/

deriving instance DecidableEq for Except

namespace Porrima

/-- Severity of a logging call (logging.info / logging.error in the source). -/
inductive LogLevel
  | info
  | error
deriving DecidableEq, Repr

/-- A solana Keypair as the embedding sees it: the decoded secret bytes and
the derived public key rendered as its base58 text. -/
structure Keypair where
  secret_key : List Nat
  public_key : String
deriving DecidableEq, Repr

/-- One instruction added to a Transaction in send_solana_transaction:
either a system-program SOL transfer or an SPL transfer_checked. -/
inductive Instr
  | transferSol (from_pubkey : String) (to_pubkey : String) (lamports : Int)
  | transferChecked (source : String) (mint : String) (dest : String)
      (owner : String) (amount : Int) (decimals : Int)
deriving DecidableEq, Repr

/-- External calls the program makes, recorded as a trace. -/
inductive ExtCall
  | sendTransaction (instrs : List Instr) (signer : String)
  | getSignaturesForAddress (address : String) (limit : Int)
  | httpGetNfts (wallet : String)
  | httpGetPrice
  | deepseekPost (prompt : String) (model : String) (max_tokens : Int)
  | writeCsv (filename : String) (rows : List (List String))
deriving DecidableEq, Repr

/-- One entry of a get_signatures_for_address response, as read by
export_transaction_history (signature, slot, blockTime fields). -/
structure TxSig where
  signature : String
  slot : Int
  blockTime : Int
deriving DecidableEq, Repr

/-- The RPC response of get_signatures_for_address: the list under its
result key. -/
structure GetSigResponse where
  result : List TxSig
deriving DecidableEq, Repr

/-- Outcome of an aiohttp GET in get_nfts / get_sol_price: a 200 body,
a non-200 status, or a raised exception. -/
inductive HttpOutcome
  | ok (body : String)
  | badStatus (status : Int)
  | exc (msg : String)
deriving DecidableEq, Repr

/-- The oracle environment: every input channel and external service the
program touches.  Each field models one collaborator of the source. -/
structure Env where
  /-- base58.b58decode: decoded bytes or the exception message. -/
  b58decode : String → Except String (List Nat)
  /-- Keypair.from_secret_key: a keypair or the exception message. -/
  from_secret_key : List Nat → Except String Keypair
  /-- Whether the PublicKey constructor accepts this address text. -/
  validAddr : String → Bool
  /-- getpass result for the private-key prompt in connect_wallet. -/
  getpassKey : String
  /-- input() result for the 2FA prompt in send_solana_transaction. -/
  input2fa : String
  /-- totp.verify. -/
  verify2fa : String → Bool
  /-- solana_client.send_transaction: result or RPC exception message. -/
  send_transaction : List Instr → String → Except String String
  /-- solana_client.get_signatures_for_address. -/
  get_signatures : String → Int → Except String GetSigResponse
  /-- json.dumps rendering of a signatures response. -/
  jsonDumpsSigs : GetSigResponse → String
  /-- The aiohttp GET in get_nfts, keyed by the wallet address. -/
  nftsHttp : String → HttpOutcome
  /-- json.dumps rendering of a fetched NFT payload. -/
  jsonDumpsNfts : String → String
  /-- The aiohttp GET in get_sol_price; an ok body carries the usd price. -/
  priceHttp : HttpOutcome
  /-- requests.post to the DeepSeek endpoint: generated text or a
  requests exception message. -/
  deepseek : String → String → Int → Except String String

/-- Python str(x) for an optional string: None prints as the word None. -/
def pyStrOpt : Option String → String
  | some r => r
  | none => "None"

/-- Membership test of a Python dict modelled as an association list
(the expression k in d of the source). -/
def pyDictContains {α : Type} (k : String) (d : List (String × α)) : Bool :=
  d.any (fun p => p.1 = k)

/-- Python dict subscript d[k], as an Option. -/
def pyDictGet {α : Type} (k : String) (d : List (String × α)) : Option α :=
  (d.find? (fun p => p.1 = k)).map Prod.snd

/-- Python dict assignment d[k] = v: update in place when the key exists,
append otherwise (insertion order preserved, as in CPython). -/
def pyDictInsert {α : Type} (k : String) (v : α) (d : List (String × α)) :
    List (String × α) :=
  if pyDictContains k d then d.map (fun p => if p.1 = k then (k, v) else p)
  else d ++ [(k, v)]

/-- Characters Python str.split() treats as separators. -/
def isPySpace (c : Char) : Bool :=
  c = ' ' ∨ c = '\t' ∨ c = '\n' ∨ c = '\r' ∨ c = '\x0b' ∨ c = '\x0c'

/-- Worker for pySplit: cur holds the current token reversed. -/
def splitWsAux : List Char → List Char → List String
  | [], [] => []
  | [], cur => [String.mk cur.reverse]
  | c :: cs, cur =>
    if isPySpace c then
      match cur with
      | [] => splitWsAux cs []
      | _ => String.mk cur.reverse :: splitWsAux cs []
    else splitWsAux cs (c :: cur)

/-- Python line.strip().split(): whitespace-delimited tokens, empties
dropped (strip is subsumed by split with no argument). -/
def pySplit (s : String) : List String :=
  splitWsAux s.data []

/-- Python str.strip() on the character list: drop whitespace at both
ends. -/
def pyStrip (cs : List Char) : List Char :=
  ((cs.dropWhile (fun c => isPySpace c)).reverse.dropWhile
    (fun c => isPySpace c)).reverse

/-- Python str.lower() for the ASCII range (command verbs are ASCII). -/
def pyLowerChar (c : Char) : Char :=
  if 'A' ≤ c && c ≤ 'Z' then Char.ofNat (c.toNat + 32) else c

/-- Python str.lower() applied to a string. -/
def pyLower (s : String) : String :=
  String.mk (s.data.map pyLowerChar)

/-- Digit run of a Python int literal: digits with single underscores
allowed between digits.  acc is the value so far, lastDigit records
whether the previous character was a digit. -/
def pyDigitsAux : List Char → Nat → Bool → Option Nat
  | [], acc, true => some acc
  | [], _, false => none
  | c :: cs, acc, lastDigit =>
    if c.isDigit then pyDigitsAux cs (acc * 10 + (c.toNat - 48)) true
    else if c = '_' && lastDigit then pyDigitsAux cs acc false
    else none

/-- Python int(s) for base 10: strip whitespace, optional sign, digits;
on failure the ValueError message. -/
def pyInt (s : String) : Except String Int :=
  let cs := pyStrip s.data
  let signed : Int × List Char :=
    match cs with
    | '+' :: r => (1, r)
    | '-' :: r => (-1, r)
    | r => (1, r)
  match pyDigitsAux signed.2 0 false with
  | some n => .ok (signed.1 * (n : Int))
  | none => .error ("invalid literal for int() with base 10: \x27" ++ s ++ "\x27")

/-- The module-level mutable state of porrima.py. -/
structure ChatState where
  wallets : List (String × Keypair)
  current_wallet : Option String
  content_cache : List (String × String)
deriving DecidableEq, Repr

/-- The initial module state: empty dicts, no active wallet. -/
def initialState : ChatState := ⟨[], none, []⟩

/-- Result of generate_with_deepseek: the cache afterwards, logging
output, calls made, and the returned text or raised exception. -/
structure GenOut where
  cache : List (String × String)
  logs : List (LogLevel × String)
  calls : List ExtCall
  result : Except String String
deriving DecidableEq, Repr

/-- generate_with_deepseek from the source: post to the API; on success
cache the result under the prompt and return it; on a requests exception
log the error and re-raise.  The cache is never read. -/
def generate_with_deepseek (env : Env) (prompt : String) (model : String)
    (max_tokens : Int) (cache : List (String × String)) : GenOut :=
  match env.deepseek prompt model max_tokens with
  | .ok generated_text =>
    ⟨pyDictInsert prompt generated_text cache, [],
     [.deepseekPost prompt model max_tokens], .ok generated_text⟩
  | .error e =>
    ⟨cache, [(.error, "DeepSeek API Error: " ++ e)],
     [.deepseekPost prompt model max_tokens], .error e⟩

/-- verify_2fa from the source: totp.verify(code). -/
def verify_2fa (env : Env) (code : String) : Bool :=
  env.verify2fa code

/-- Result of connect_wallet: the wallets dict afterwards, logging output,
and success or the raised exception. -/
structure ConnectOut where
  wallets : List (String × Keypair)
  logs : List (LogLevel × String)
  result : Except String Unit
deriving DecidableEq, Repr

/-- connect_wallet from the source: decode the base58 secret, derive the
keypair, store it under the name (overwriting); on failure log and
re-raise. -/
def connect_wallet (env : Env) (wallet_name : String) (private_key : String)
    (wallets : List (String × Keypair)) : ConnectOut :=
  match (env.b58decode private_key).bind env.from_secret_key with
  | .ok keypair =>
    ⟨pyDictInsert wallet_name keypair wallets,
     [(.info, "Wallet \x27" ++ wallet_name ++ "\x27 connected: " ++
        keypair.public_key)], .ok ()⟩
  | .error e =>
    ⟨wallets, [(.error, "Failed to connect wallet: " ++ e)], .error e⟩

/-- switch_wallet from the source: when the name is a key of wallets, the
new value of current_wallet (some name) and an info log; otherwise no
update (none) and an error log. -/
def switch_wallet (wallet_name : String) (wallets : List (String × Keypair)) :
    Option String × List (LogLevel × String) :=
  if pyDictContains wallet_name wallets then
    (some wallet_name,
     [(.info, "Switched to wallet \x27" ++ wallet_name ++ "\x27")])
  else
    (none, [(.error, "Wallet \x27" ++ wallet_name ++ "\x27 not found.")])

/-- Result of send_solana_transaction: logging output, calls made, and the
returned value (none when the 2FA gate stopped the send, some result on a
submitted transfer) or the raised exception. -/
structure SendOut where
  logs : List (LogLevel × String)
  calls : List ExtCall
  result : Except String (Option String)
deriving DecidableEq, Repr

/-- send_solana_transaction from the source: 2FA gate, PublicKey
construction of the recipient (raises on invalid text), transaction built
from either a transfer_checked (token path) or a system transfer, then
signed and submitted; an RPC exception is logged and re-raised. -/
def send_solana_transaction (env : Env) (sender_keypair : Keypair)
    (recipient_address : String) (amount : Int)
    (token_address : Option String) (decimals : Int) : SendOut :=
  let code := env.input2fa
  if !(verify_2fa env code) then
    ⟨[(.error, "Invalid 2FA code.")], [], .ok none⟩
  else
    let sender_public_key := sender_keypair.public_key
    if !(env.validAddr recipient_address) then
      ⟨[], [], .error "Invalid public key input"⟩
    else
      let instrs? : Except String (List Instr) :=
        match token_address with
        | some t =>
          if env.validAddr t then
            .ok [Instr.transferChecked sender_public_key t recipient_address
                  sender_public_key amount decimals]
          else .error "Invalid public key input"
        | none =>
          .ok [Instr.transferSol sender_public_key recipient_address amount]
      match instrs? with
      | .error e => ⟨[], [], .error e⟩
      | .ok instrs =>
        match env.send_transaction instrs sender_public_key with
        | .ok result =>
          ⟨[(.info, "Transaction sent: " ++ result)],
           [.sendTransaction instrs sender_public_key], .ok (some result)⟩
        | .error e =>
          ⟨[(.error, "Transaction failed: " ++ e)],
           [.sendTransaction instrs sender_public_key], .error e⟩

/-- Result of receive_solana_transactions. -/
structure ReceiveOut where
  logs : List (LogLevel × String)
  calls : List ExtCall
  result : Except String GetSigResponse
deriving DecidableEq, Repr

/-- receive_solana_transactions from the source: PublicKey construction of
the address, then get_signatures_for_address; an RPC exception is logged
and re-raised. -/
def receive_solana_transactions (env : Env) (wallet_address : String)
    (limit : Int) : ReceiveOut :=
  if !(env.validAddr wallet_address) then
    ⟨[], [], .error "Invalid public key input"⟩
  else
    match env.get_signatures wallet_address limit with
    | .ok transactions =>
      ⟨[], [.getSignaturesForAddress wallet_address limit], .ok transactions⟩
    | .error e =>
      ⟨[(.error, "Failed to fetch transactions: " ++ e)],
       [.getSignaturesForAddress wallet_address limit], .error e⟩

/-- Result of get_nfts: logging output, calls made, and the payload or
None. -/
structure NftsOut where
  logs : List (LogLevel × String)
  calls : List ExtCall
  result : Option String
deriving DecidableEq, Repr

/-- get_nfts from the source: one HTTP GET; non-200 or an exception is
logged and yields None. -/
def get_nfts (env : Env) (wallet_address : String) : NftsOut :=
  match env.nftsHttp wallet_address with
  | .ok body => ⟨[], [.httpGetNfts wallet_address], some body⟩
  | .badStatus st =>
    ⟨[(.error, "Failed to fetch NFTs: " ++ toString st)],
     [.httpGetNfts wallet_address], none⟩
  | .exc m =>
    ⟨[(.error, "Error fetching NFTs: " ++ m)],
     [.httpGetNfts wallet_address], none⟩

/-- Result of get_sol_price. -/
structure PriceOut where
  logs : List (LogLevel × String)
  calls : List ExtCall
  result : Option String
deriving DecidableEq, Repr

/-- get_sol_price from the source: one HTTP GET; non-200 or an exception
is logged and yields None. -/
def get_sol_price (env : Env) : PriceOut :=
  match env.priceHttp with
  | .ok usd => ⟨[], [.httpGetPrice], some usd⟩
  | .badStatus st =>
    ⟨[(.error, "Failed to fetch SOL price: " ++ toString st)],
     [.httpGetPrice], none⟩
  | .exc m =>
    ⟨[(.error, "Error fetching SOL price: " ++ m)], [.httpGetPrice], none⟩

/-- Result of export_transaction_history. -/
structure ExportOut where
  logs : List (LogLevel × String)
  calls : List ExtCall
  result : Except String Unit
deriving DecidableEq, Repr

/-- export_transaction_history from the source: fetch the history (default
limit 10), then write the CSV (header row plus one row per signature) and
log; a fetch exception propagates. -/
def export_transaction_history (env : Env) (wallet_address : String)
    (filename : String) : ExportOut :=
  let r := receive_solana_transactions env wallet_address 10
  match r.result with
  | .error e => ⟨r.logs, r.calls, .error e⟩
  | .ok transactions =>
    ⟨r.logs ++ [(.info, "Transaction history exported to " ++ filename)],
     r.calls ++ [.writeCsv filename (["Signature", "Slot", "Block Time"] ::
        transactions.result.map
          (fun tx => [tx.signature, toString tx.slot, toString tx.blockTime]))],
     .ok ()⟩

/-- Whether a handler branch finished normally, raised an exception (to be
caught and printed by the except clause of the loop), or hit the exit
break. -/
inductive DispatchRes
  | normal
  | raised (msg : String)
  | exitLoop
deriving DecidableEq, Repr

/-- Effect of one command branch of the chatbot loop body.  The three new*
fields are state writes (none = field untouched); prints are print()
lines, logs are logging calls, calls the external calls made. -/
structure CmdOut where
  newWallets : Option (List (String × Keypair))
  newCur : Option String
  newCache : Option (List (String × String))
  prints : List String
  logs : List (LogLevel × String)
  calls : List ExtCall
  res : DispatchRes
deriving DecidableEq, Repr

/-- A branch that only prints one line (usage or wallet-not-found). -/
def msgOut (msg : String) : CmdOut :=
  ⟨none, none, none, [msg], [], [], .normal⟩

/-- A branch that raised before producing any output (e.g. int() on a bad
literal). -/
def raisedOut (m : String) : CmdOut :=
  ⟨none, none, none, [], [], [], .raised m⟩

/-- The wallet-not-found print of the chatbot loop branches. -/
def notFoundMsg (wallet_name : String) : String :=
  "Wallet \x27" ++ wallet_name ++ "\x27 not found. Connect it first."

/-- The connect_wallet branch of the loop: exactly one argument, the key
prompted via getpass. -/
def connectCmd (env : Env) (wallets : List (String × Keypair))
    (args : List String) : CmdOut :=
  match args with
  | [wallet_name] =>
    match connect_wallet env wallet_name env.getpassKey wallets with
    | ⟨w2, lgs, .ok _⟩ => ⟨some w2, none, none, [], lgs, [], .normal⟩
    | ⟨w2, lgs, .error e⟩ => ⟨some w2, none, none, [], lgs, [], .raised e⟩
  | _ => msgOut "Usage: connect_wallet <wallet_name>"

/-- The switch_wallet branch of the loop. -/
def switchCmd (wallets : List (String × Keypair)) (args : List String) :
    CmdOut :=
  match args with
  | [wallet_name] =>
    ⟨none, (switch_wallet wallet_name wallets).1, none, [],
     (switch_wallet wallet_name wallets).2, [], .normal⟩
  | _ => msgOut "Usage: switch_wallet <wallet_name>"

/-- The optional token_address argument of the send command (args[3]). -/
def sendTokenArg (rest : List String) : Option String :=
  match rest with
  | t :: _ => some t
  | [] => none

/-- The send branch of the loop: int(args[2]) runs before the wallet
lookup, so a bad amount raises first; wallet lookup failure prints; then
send_solana_transaction runs and its result is printed. -/
def sendCmd (env : Env) (wallets : List (String × Keypair))
    (args : List String) : CmdOut :=
  match args with
  | a0 :: a1 :: a2 :: rest =>
    match pyInt a2 with
    | .error m => raisedOut m
    | .ok amount =>
      match pyDictGet a0 wallets with
      | none => msgOut (notFoundMsg a0)
      | some kp =>
        match send_solana_transaction env kp a1 amount (sendTokenArg rest) 9 with
        | ⟨lgs, calls, .ok optResult⟩ =>
          ⟨none, none, none, ["Transaction Result: " ++ pyStrOpt optResult],
           lgs, calls, .normal⟩
        | ⟨lgs, calls, .error e⟩ =>
          ⟨none, none, none, [], lgs, calls, .raised e⟩
  | _ => msgOut "Usage: send <wallet_name> <recipient_address> <amount> [token_address]"

/-- The optional limit argument of the receive command (args[1],
default 10). -/
def recvLimit (rest : List String) : Except String Int :=
  match rest with
  | a1 :: _ => pyInt a1
  | [] => .ok 10

/-- The receive branch of the loop: int(args[1]) (default 10) runs before
the wallet lookup; the fetched history is printed as json. -/
def receiveCmd (env : Env) (wallets : List (String × Keypair))
    (args : List String) : CmdOut :=
  match args with
  | [] => msgOut "Usage: receive <wallet_name> [limit]"
  | a0 :: rest =>
    match recvLimit rest with
    | .error m => raisedOut m
    | .ok limit =>
      match pyDictGet a0 wallets with
      | none => msgOut (notFoundMsg a0)
      | some kp =>
        match receive_solana_transactions env kp.public_key limit with
        | ⟨lgs, calls, .ok transactions⟩ =>
          ⟨none, none, none,
           ["Transaction History: " ++ env.jsonDumpsSigs transactions],
           lgs, calls, .normal⟩
        | ⟨lgs, calls, .error e⟩ =>
          ⟨none, none, none, [], lgs, calls, .raised e⟩

/-- The nfts branch of the loop: get_nfts never raises; None prints as
null under json.dumps. -/
def nftsCmd (env : Env) (wallets : List (String × Keypair))
    (args : List String) : CmdOut :=
  match args with
  | [wallet_name] =>
    match pyDictGet wallet_name wallets with
    | none => msgOut (notFoundMsg wallet_name)
    | some kp =>
      match get_nfts env kp.public_key with
      | ⟨lgs, calls, some b⟩ =>
        ⟨none, none, none, ["NFTs: " ++ env.jsonDumpsNfts b], lgs, calls,
         .normal⟩
      | ⟨lgs, calls, none⟩ =>
        ⟨none, none, none, ["NFTs: null"], lgs, calls, .normal⟩
  | _ => msgOut "Usage: nfts <wallet_name>"

/-- The price branch of the loop (no arity check in the source). -/
def priceCmd (env : Env) : CmdOut :=
  ⟨none, none, none,
   ["Current SOL Price: $" ++ pyStrOpt (get_sol_price env).result],
   (get_sol_price env).logs, (get_sol_price env).calls, .normal⟩

/-- The optional model argument of the generate command (args[1]). -/
def genModel (rest : List String) : String :=
  match rest with
  | m :: _ => m
  | [] => "default"

/-- The optional max_tokens argument of the generate command (args[2],
default 100). -/
def genMaxTokens (rest : List String) : Except String Int :=
  match rest with
  | _ :: a2 :: _ => pyInt a2
  | _ => .ok 100

/-- The generate branch of the loop: int(args[2]) (default 100) runs
first, then generate_with_deepseek; its exception propagates, its success
is printed and the cache write kept. -/
def generateCmd (env : Env) (cache : List (String × String))
    (args : List String) : CmdOut :=
  match args with
  | [] => msgOut "Usage: generate <prompt> [model] [max_tokens]"
  | prompt :: rest =>
    match genMaxTokens rest with
    | .error m => raisedOut m
    | .ok max_tokens =>
      match generate_with_deepseek env prompt (genModel rest) max_tokens cache with
      | ⟨cache2, lgs, calls, .ok generated_content⟩ =>
        ⟨none, none, some cache2,
         ["Generated Content: " ++ generated_content], lgs, calls, .normal⟩
      | ⟨cache2, lgs, calls, .error e⟩ =>
        ⟨none, none, some cache2, [], lgs, calls, .raised e⟩

/-- The export_history branch of the loop. -/
def exportCmd (env : Env) (wallets : List (String × Keypair))
    (args : List String) : CmdOut :=
  match args with
  | a0 :: filename :: _ =>
    match pyDictGet a0 wallets with
    | none => msgOut (notFoundMsg a0)
    | some kp =>
      match export_transaction_history env kp.public_key filename with
      | ⟨lgs, calls, .ok _⟩ => ⟨none, none, none, [], lgs, calls, .normal⟩
      | ⟨lgs, calls, .error e⟩ =>
        ⟨none, none, none, [], lgs, calls, .raised e⟩
  | _ => msgOut "Usage: export_history <wallet_name> <filename>"

/-- The exit branch of the loop. -/
def exitCmd : CmdOut :=
  ⟨none, none, none, ["Goodbye!"], [], [], .exitLoop⟩

/-- The trailing else of the loop. -/
def invalidCmd : CmdOut :=
  ⟨none, none, none,
   ["Invalid command. Type \x27help\x27 for a list of commands."], [], [],
   .normal⟩

/-- The if/elif chain of the chatbot loop body, on the lowercased first
token.  Note it reads only s.wallets and s.content_cache, never
s.current_wallet. -/
def dispatch (env : Env) (s : ChatState) (cmd : String)
    (args : List String) : CmdOut :=
  if cmd = "connect_wallet" then connectCmd env s.wallets args
  else if cmd = "switch_wallet" then switchCmd s.wallets args
  else if cmd = "send" then sendCmd env s.wallets args
  else if cmd = "receive" then receiveCmd env s.wallets args
  else if cmd = "nfts" then nftsCmd env s.wallets args
  else if cmd = "price" then priceCmd env
  else if cmd = "generate" then generateCmd env s.content_cache args
  else if cmd = "export_history" then exportCmd env s.wallets args
  else if cmd = "exit" then exitCmd
  else invalidCmd

/-- Apply the state writes of a command branch. -/
def applyCmd (s : ChatState) (o : CmdOut) : ChatState :=
  { wallets := o.newWallets.getD s.wallets,
    current_wallet :=
      match o.newCur with
      | some n => some n
      | none => s.current_wallet,
    content_cache := o.newCache.getD s.content_cache }

/-- Observable result of one iteration of the chatbot loop. -/
structure StepOut where
  state : ChatState
  prints : List String
  logs : List (LogLevel × String)
  calls : List ExtCall
  cont : Bool
deriving DecidableEq, Repr

/-- Close one loop iteration from a branch effect: the except clause turns
a raised exception into an Error print and continues; only the exit break
stops the loop. -/
def stepOfCmd (s : ChatState) (o : CmdOut) : StepOut :=
  match o.res with
  | .normal => ⟨applyCmd s o, o.prints, o.logs, o.calls, true⟩
  | .raised m =>
    ⟨applyCmd s o, o.prints ++ ["Error: " ++ m], o.logs, o.calls, true⟩
  | .exitLoop => ⟨applyCmd s o, o.prints, o.logs, o.calls, false⟩

/-- One iteration of the chatbot loop on one input line: tokenize, skip
empty lines, dispatch on the lowercased first token inside try, convert a
raised exception to an Error print (the except clause), stop on exit. -/
def chatbotStep (env : Env) (s : ChatState) (line : String) : StepOut :=
  match pySplit line with
  | [] => ⟨s, [], [], [], true⟩
  | c0 :: args => stepOfCmd s (dispatch env s (pyLower c0) args)

/-- Observable result of running the loop on a list of input lines. -/
structure RunOut where
  state : ChatState
  prints : List String
  logs : List (LogLevel × String)
  calls : List ExtCall
  exited : Bool
deriving DecidableEq, Repr

/-- The chatbot loop on a finite list of input lines: iterate chatbotStep
until the exit break or the input runs out. -/
def chatbotRun (env : Env) : ChatState → List String → RunOut
  | s, [] => ⟨s, [], [], [], false⟩
  | s, line :: rest =>
    if (chatbotStep env s line).cont then
      ⟨(chatbotRun env (chatbotStep env s line).state rest).state,
       (chatbotStep env s line).prints ++
         (chatbotRun env (chatbotStep env s line).state rest).prints,
       (chatbotStep env s line).logs ++
         (chatbotRun env (chatbotStep env s line).state rest).logs,
       (chatbotStep env s line).calls ++
         (chatbotRun env (chatbotStep env s line).state rest).calls,
       (chatbotRun env (chatbotStep env s line).state rest).exited⟩
    else
      ⟨(chatbotStep env s line).state, (chatbotStep env s line).prints,
       (chatbotStep env s line).logs, (chatbotStep env s line).calls, true⟩

/-- The command vocabulary of the loop. -/
def knownCmds : List String :=
  ["connect_wallet", "switch_wallet", "send", "receive", "nfts", "price",
   "generate", "export_history", "exit"]

/-- Whether a line's first token is the exit command (case-insensitively). -/
def isExitLine (line : String) : Bool :=
  match pySplit line with
  | c0 :: _ => pyLower c0 = "exit"
  | [] => false

/-- A keypair used by concrete test states. -/
def kpA : Keypair := ⟨[1, 2, 3], "PUBKEYA"⟩

/-- A second keypair used by concrete test states. -/
def kpB : Keypair := ⟨[4, 5, 6], "PUBKEYB"⟩

/-- A stub environment recording canned responses, in the spirit of the
stub chain client of the spec's end-to-end test. -/
def stubEnv : Env where
  b58decode := fun pk =>
    if pk = "key1" then .ok [1, 2, 3]
    else if pk = "key2" then .ok [4, 5, 6]
    else .error "Invalid base58 string"
  from_secret_key := fun bytes =>
    if bytes = [1, 2, 3] then .ok kpA
    else if bytes = [4, 5, 6] then .ok kpB
    else .error "bad secret key"
  validAddr := fun _ => true
  getpassKey := "key1"
  input2fa := "123456"
  verify2fa := fun c => c = "123456"
  send_transaction := fun _ _ => .ok "sig123"
  get_signatures := fun _ _ => .ok ⟨[⟨"s1", 5, 7⟩]⟩
  jsonDumpsSigs := fun r => toString (repr r)
  nftsHttp := fun _ => .ok "nftbody"
  jsonDumpsNfts := fun b => b
  priceHttp := .ok "100.5"
  deepseek := fun p _ _ => .ok ("gen:" ++ p)

example : pySplit "  send  w1 RecipientAddr 1000 " =
    ["send", "w1", "RecipientAddr", "1000"] := by decide

example : pyInt "1000" = .ok 1000 := by decide

example : pyInt "abc" =
    .error "invalid literal for int() with base 10: \x27abc\x27" := by decide

example : pyInt " -42 " = .ok (-42) := by decide

example : pyInt "1_0" = .ok 10 := by decide

example : pyInt "1__0" =
    .error "invalid literal for int() with base 10: \x271__0\x27" := by decide

example :
    chatbotStep stubEnv ⟨[("w1", kpA)], none, []⟩ "send w1 RecipientAddr 1000" =
      ⟨⟨[("w1", kpA)], none, []⟩,
       ["Transaction Result: sig123"],
       [(.info, "Transaction sent: sig123")],
       [.sendTransaction [.transferSol "PUBKEYA" "RecipientAddr" 1000] "PUBKEYA"],
       true⟩ := by decide

example :
    (chatbotStep stubEnv ⟨[("alice", kpA)], none, []⟩ "send alice Addr abc").prints =
      ["Error: invalid literal for int() with base 10: \x27abc\x27"] := by decide

example :
    (chatbotStep stubEnv initialState "EXIT now").cont = false := by decide

example :
    (chatbotStep stubEnv initialState "frobnicate x").prints =
      ["Invalid command. Type \x27help\x27 for a list of commands."] := by decide

lemma pyDictContains_false_iff {α : Type} (k : String) (d : List (String × α)) :
    pyDictContains k d = false ↔ ∀ p ∈ d, p.1 ≠ k := by
  simp [pyDictContains]

lemma filter_key_eq_nil {α : Type} (k : String) (d : List (String × α))
    (h : ∀ p ∈ d, p.1 ≠ k) :
    d.filter (fun p => p.1 = k) = [] := by
  induction d with
  | nil => rfl
  | cons p t ih =>
    have hp : ¬(p.1 = k) := h p (by simp)
    simp only [List.filter_cons, decide_eq_true_eq]
    rw [if_neg hp]
    exact ih (fun q hq => h q (by simp [hq]))

lemma replace_map_id {α : Type} (k : String) (v : α) (d : List (String × α))
    (h : ∀ p ∈ d, p.1 ≠ k) :
    d.map (fun p => if p.1 = k then (k, v) else p) = d := by
  induction d with
  | nil => rfl
  | cons p t ih =>
    have hp : ¬(p.1 = k) := h p (by simp)
    simp only [List.map_cons, if_neg hp]
    rw [ih (fun q hq => h q (by simp [hq]))]

lemma replace_keys {α : Type} (k : String) (v : α) (d : List (String × α)) :
    (d.map (fun p => if p.1 = k then (k, v) else p)).map Prod.fst =
      d.map Prod.fst := by
  induction d with
  | nil => rfl
  | cons p t ih =>
    by_cases hp : p.1 = k
    · simp only [List.map_cons, if_pos hp, ih]
      rw [hp]
    · simp only [List.map_cons, if_neg hp, ih]

lemma replace_filter {α : Type} (k : String) (v : α) (d : List (String × α))
    (h : (d.map Prod.fst).Nodup) (hc : pyDictContains k d = true) :
    (d.map (fun p => if p.1 = k then (k, v) else p)).filter
      (fun p => p.1 = k) = [(k, v)] := by
  induction d with
  | nil => simp [pyDictContains] at hc
  | cons p t ih =>
    simp only [List.map_cons, List.nodup_cons] at h
    by_cases hp : p.1 = k
    · have htk : ∀ q ∈ t, q.1 ≠ k := by
        intro q hq
        intro hqk
        exact h.1 (by
          rw [hp]
          rw [← hqk]
          exact List.mem_map_of_mem Prod.fst hq)
      simp only [List.map_cons, if_pos hp, List.filter_cons]
      rw [replace_map_id k v t htk]
      rw [filter_key_eq_nil k t htk]
      simp
    · have hct : pyDictContains k t = true := by
        simp only [pyDictContains, List.any_cons] at hc
        rcases Bool.or_eq_true_iff.mp hc with h1 | h1
        · exact absurd (of_decide_eq_true h1) hp
        · exact h1
      simp only [List.map_cons, if_neg hp, List.filter_cons]
      rw [ih h.2 hct]
      simp [hp]

lemma pyDictInsert_filter {α : Type} (k : String) (v : α)
    (d : List (String × α)) (h : (d.map Prod.fst).Nodup) :
    (pyDictInsert k v d).filter (fun p => p.1 = k) = [(k, v)] := by
  unfold pyDictInsert
  by_cases hc : pyDictContains k d
  · rw [if_pos hc]
    exact replace_filter k v d h hc
  · rw [if_neg hc]
    rw [List.filter_append]
    rw [filter_key_eq_nil k d ((pyDictContains_false_iff k d).mp
      (Bool.not_eq_true _ ▸ eq_false_of_ne_true hc))]
    simp

lemma pyDictInsert_nodupKeys {α : Type} (k : String) (v : α)
    (d : List (String × α)) (h : (d.map Prod.fst).Nodup) :
    ((pyDictInsert k v d).map Prod.fst).Nodup := by
  unfold pyDictInsert
  by_cases hc : pyDictContains k d
  · rw [if_pos hc]
    rw [replace_keys]
    exact h
  · rw [if_neg hc]
    have hk : ∀ p ∈ d, p.1 ≠ k := (pyDictContains_false_iff k d).mp
      (Bool.not_eq_true _ ▸ eq_false_of_ne_true hc)
    simp only [List.map_append, List.map_cons, List.map_nil]
    rw [List.nodup_append]
    refine ⟨h, List.nodup_singleton k, ?_⟩
    intro a ha
    simp only [List.mem_singleton]
    rcases List.mem_map.mp ha with ⟨p, hp, rfl⟩
    exact hk p hp

lemma connectCmd_frame (env : Env) (w : List (String × Keypair))
    (args : List String) :
    (connectCmd env w args).res ≠ DispatchRes.exitLoop ∧
    (connectCmd env w args).newCur = none := by
  unfold connectCmd
  split
  · split <;> simp
  · simp [msgOut]

lemma switch_wallet_some (n name : String) (w : List (String × Keypair))
    (h : (switch_wallet name w).1 = some n) :
    pyDictContains n w = true := by
  unfold switch_wallet at h
  by_cases hc : pyDictContains name w
  · rw [if_pos hc] at h
    simp only [Prod.fst] at h
    cases h
    exact hc
  · rw [if_neg hc] at h
    simp at h

lemma switchCmd_frame (w : List (String × Keypair)) (args : List String) :
    (switchCmd w args).res ≠ DispatchRes.exitLoop ∧
    (∀ n, (switchCmd w args).newCur = some n →
      pyDictContains n w = true) := by
  unfold switchCmd
  split
  · refine ⟨by simp, ?_⟩
    intro n hn
    exact switch_wallet_some n _ w hn
  · simp [msgOut]

lemma sendCmd_frame (env : Env) (w : List (String × Keypair))
    (args : List String) :
    (sendCmd env w args).res ≠ DispatchRes.exitLoop ∧
    (sendCmd env w args).newCur = none := by
  unfold sendCmd
  split
  · split
    · simp [raisedOut]
    · split
      · simp [msgOut]
      · split <;> simp
  · simp [msgOut]

lemma receiveCmd_frame (env : Env) (w : List (String × Keypair))
    (args : List String) :
    (receiveCmd env w args).res ≠ DispatchRes.exitLoop ∧
    (receiveCmd env w args).newCur = none := by
  unfold receiveCmd
  split
  · simp [msgOut]
  · split
    · simp [raisedOut]
    · split
      · simp [msgOut]
      · split <;> simp

lemma nftsCmd_frame (env : Env) (w : List (String × Keypair))
    (args : List String) :
    (nftsCmd env w args).res ≠ DispatchRes.exitLoop ∧
    (nftsCmd env w args).newCur = none := by
  unfold nftsCmd
  split
  · split
    · simp [msgOut]
    · split <;> simp
  · simp [msgOut]

lemma priceCmd_frame (env : Env) :
    (priceCmd env).res ≠ DispatchRes.exitLoop ∧
    (priceCmd env).newCur = none := by
  simp [priceCmd]

lemma generateCmd_frame (env : Env) (cache : List (String × String))
    (args : List String) :
    (generateCmd env cache args).res ≠ DispatchRes.exitLoop ∧
    (generateCmd env cache args).newCur = none := by
  unfold generateCmd
  split
  · simp [msgOut]
  · split
    · simp [raisedOut]
    · split <;> simp

lemma exportCmd_frame (env : Env) (w : List (String × Keypair))
    (args : List String) :
    (exportCmd env w args).res ≠ DispatchRes.exitLoop ∧
    (exportCmd env w args).newCur = none := by
  unfold exportCmd
  split
  · split
    · simp [msgOut]
    · split <;> simp
  · simp [msgOut]

lemma invalidCmd_frame :
    invalidCmd.res ≠ DispatchRes.exitLoop ∧ invalidCmd.newCur = none := by
  simp [invalidCmd]

lemma generate_indep (env : Env) (prompt model : String) (mt : Int)
    (c1 c2 : List (String × String)) :
    (generate_with_deepseek env prompt model mt c1).result =
      (generate_with_deepseek env prompt model mt c2).result ∧
    (generate_with_deepseek env prompt model mt c1).logs =
      (generate_with_deepseek env prompt model mt c2).logs ∧
    (generate_with_deepseek env prompt model mt c1).calls =
      (generate_with_deepseek env prompt model mt c2).calls := by
  unfold generate_with_deepseek
  cases env.deepseek prompt model mt <;> simp

lemma generate_ok_cache (env : Env) (prompt model : String) (mt : Int)
    (c : List (String × String)) (text : String)
    (h : env.deepseek prompt model mt = .ok text) :
    (generate_with_deepseek env prompt model mt c).cache =
      pyDictInsert prompt text c ∧
    (generate_with_deepseek env prompt model mt c).result = .ok text := by
  unfold generate_with_deepseek
  rw [h]
  exact ⟨rfl, rfl⟩

lemma generateCmd_cache_indep (env : Env)
    (c1 c2 : List (String × String)) (args : List String) :
    (generateCmd env c1 args).prints = (generateCmd env c2 args).prints ∧
    (generateCmd env c1 args).logs = (generateCmd env c2 args).logs ∧
    (generateCmd env c1 args).calls = (generateCmd env c2 args).calls ∧
    (generateCmd env c1 args).res = (generateCmd env c2 args).res ∧
    (generateCmd env c1 args).newWallets = (generateCmd env c2 args).newWallets ∧
    (generateCmd env c1 args).newCur = (generateCmd env c2 args).newCur := by
  unfold generateCmd
  split
  · exact ⟨rfl, rfl, rfl, rfl, rfl, rfl⟩
  · rename_i prompt rest
    split
    · exact ⟨rfl, rfl, rfl, rfl, rfl, rfl⟩
    · rename_i mt heq
      have h := generate_indep env prompt (genModel rest) mt c1 c2
      rcases hg1 : generate_with_deepseek env prompt (genModel rest) mt c1
        with ⟨ca1, lg1, cl1, r1⟩
      rcases hg2 : generate_with_deepseek env prompt (genModel rest) mt c2
        with ⟨ca2, lg2, cl2, r2⟩
      rw [hg1, hg2] at h
      simp only at h
      obtain ⟨hr, hl, hcals⟩ := h
      subst hr
      subst hl
      subst hcals
      cases r1 <;> exact ⟨rfl, rfl, rfl, rfl, rfl, rfl⟩

lemma dispatch_exitLoop_iff (env : Env) (s : ChatState) (cmd : String)
    (args : List String) :
    ((dispatch env s cmd args).res = DispatchRes.exitLoop ↔ cmd = "exit") := by
  unfold dispatch
  split_ifs with h1 h2 h3 h4 h5 h6 h7 h8 h9
  · refine ⟨fun h => absurd h (connectCmd_frame env s.wallets args).1, fun h => ?_⟩
    rw [h] at h1
    exact absurd h1 (by decide)
  · refine ⟨fun h => absurd h (switchCmd_frame s.wallets args).1, fun h => ?_⟩
    rw [h] at h2
    exact absurd h2 (by decide)
  · refine ⟨fun h => absurd h (sendCmd_frame env s.wallets args).1, fun h => ?_⟩
    rw [h] at h3
    exact absurd h3 (by decide)
  · refine ⟨fun h => absurd h (receiveCmd_frame env s.wallets args).1, fun h => ?_⟩
    rw [h] at h4
    exact absurd h4 (by decide)
  · refine ⟨fun h => absurd h (nftsCmd_frame env s.wallets args).1, fun h => ?_⟩
    rw [h] at h5
    exact absurd h5 (by decide)
  · refine ⟨fun h => absurd h (priceCmd_frame env).1, fun h => ?_⟩
    rw [h] at h6
    exact absurd h6 (by decide)
  · refine ⟨fun h => absurd h (generateCmd_frame env s.content_cache args).1, fun h => ?_⟩
    rw [h] at h7
    exact absurd h7 (by decide)
  · refine ⟨fun h => absurd h (exportCmd_frame env s.wallets args).1, fun h => ?_⟩
    rw [h] at h8
    exact absurd h8 (by decide)
  · simp [exitCmd, h9]
  · simp [invalidCmd, h9]

lemma dispatch_newCur_some (env : Env) (s : ChatState) (cmd : String)
    (args : List String) (n : String)
    (h : (dispatch env s cmd args).newCur = some n) :
    pyDictContains n s.wallets = true := by
  unfold dispatch at h
  split_ifs at h
  · rw [(connectCmd_frame env s.wallets args).2] at h
    cases h
  · exact (switchCmd_frame s.wallets args).2 n h
  · rw [(sendCmd_frame env s.wallets args).2] at h
    cases h
  · rw [(receiveCmd_frame env s.wallets args).2] at h
    cases h
  · rw [(nftsCmd_frame env s.wallets args).2] at h
    cases h
  · rw [(priceCmd_frame env).2] at h
    cases h
  · rw [(generateCmd_frame env s.content_cache args).2] at h
    cases h
  · rw [(exportCmd_frame env s.wallets args).2] at h
    cases h
  · simp [exitCmd] at h
  · simp [invalidCmd] at h

lemma dispatch_state_indep (env : Env) (cmd : String) (args : List String)
    (s1 s2 : ChatState) (hw : s1.wallets = s2.wallets)
    (hc : s1.content_cache = s2.content_cache) :
    dispatch env s1 cmd args = dispatch env s2 cmd args := by
  unfold dispatch
  rw [hw, hc]

lemma dispatch_cache_indep (env : Env) (cmd : String) (args : List String)
    (s1 s2 : ChatState) (hw : s1.wallets = s2.wallets) :
    (dispatch env s1 cmd args).prints = (dispatch env s2 cmd args).prints ∧
    (dispatch env s1 cmd args).logs = (dispatch env s2 cmd args).logs ∧
    (dispatch env s1 cmd args).calls = (dispatch env s2 cmd args).calls ∧
    (dispatch env s1 cmd args).res = (dispatch env s2 cmd args).res ∧
    (dispatch env s1 cmd args).newWallets = (dispatch env s2 cmd args).newWallets ∧
    (dispatch env s1 cmd args).newCur = (dispatch env s2 cmd args).newCur := by
  unfold dispatch
  rw [hw]
  split_ifs <;>
    first
      | exact ⟨rfl, rfl, rfl, rfl, rfl, rfl⟩
      | exact generateCmd_cache_indep env s1.content_cache s2.content_cache args

lemma applyCmd_id (s : ChatState) (o : CmdOut) (hw : o.newWallets = none)
    (hcu : o.newCur = none) (hca : o.newCache = none) : applyCmd s o = s := by
  unfold applyCmd
  rw [hw, hcu, hca]
  rfl

lemma stepOfCmd_cont (s : ChatState) (o : CmdOut) :
    ((stepOfCmd s o).cont = false ↔ o.res = DispatchRes.exitLoop) := by
  unfold stepOfCmd
  rcases o with ⟨nw, nc, nca, pr, lg, cl, res⟩
  cases res <;> simp

lemma stepOfCmd_state (s : ChatState) (o : CmdOut) :
    (stepOfCmd s o).state = applyCmd s o := by
  unfold stepOfCmd
  rcases o with ⟨nw, nc, nca, pr, lg, cl, res⟩
  cases res <;> rfl

lemma stepOfCmd_logs (s : ChatState) (o : CmdOut) :
    (stepOfCmd s o).logs = o.logs := by
  unfold stepOfCmd
  rcases o with ⟨nw, nc, nca, pr, lg, cl, res⟩
  cases res <;> rfl

lemma stepOfCmd_calls (s : ChatState) (o : CmdOut) :
    (stepOfCmd s o).calls = o.calls := by
  unfold stepOfCmd
  rcases o with ⟨nw, nc, nca, pr, lg, cl, res⟩
  cases res <;> rfl

lemma stepOfCmd_raised (s : ChatState) (o : CmdOut) (m : String)
    (h : o.res = DispatchRes.raised m) :
    (stepOfCmd s o).prints = o.prints ++ ["Error: " ++ m] ∧
    (stepOfCmd s o).cont = true := by
  unfold stepOfCmd
  rw [h]
  exact ⟨rfl, rfl⟩

lemma dispatch_exit (env : Env) (s : ChatState) (args : List String) :
    dispatch env s "exit" args = exitCmd := by
  unfold dispatch
  simp

lemma chatbotStep_nil (env : Env) (s : ChatState) (line : String)
    (hs : pySplit line = []) :
    chatbotStep env s line = ⟨s, [], [], [], true⟩ := by
  unfold chatbotStep
  rw [hs]

lemma chatbotStep_eq (env : Env) (s : ChatState) (line : String)
    (c0 : String) (args : List String) (hs : pySplit line = c0 :: args) :
    chatbotStep env s line = stepOfCmd s (dispatch env s (pyLower c0) args) := by
  unfold chatbotStep
  rw [hs]

lemma chatbotStep_cont_iff (env : Env) (s : ChatState) (line : String) :
    ((chatbotStep env s line).cont = false ↔ isExitLine line = true) := by
  unfold chatbotStep isExitLine
  cases hs : pySplit line with
  | nil => simp
  | cons c0 args =>
    rw [stepOfCmd_cont, dispatch_exitLoop_iff]
    simp

lemma chatbotStep_exit (env : Env) (s : ChatState) (line : String)
    (c0 : String) (args : List String)
    (hs : pySplit line = c0 :: args) (hc : pyLower c0 = "exit") :
    chatbotStep env s line = ⟨s, ["Goodbye!"], [], [], false⟩ := by
  rw [chatbotStep_eq env s line c0 args hs, hc, dispatch_exit]
  unfold stepOfCmd exitCmd
  rw [applyCmd_id s _ rfl rfl rfl]

lemma chatbotStep_current_change (env : Env) (s : ChatState) (line : String)
    (h : (chatbotStep env s line).state.current_wallet ≠ s.current_wallet) :
    ∃ n, (chatbotStep env s line).state.current_wallet = some n ∧
      pyDictContains n s.wallets = true := by
  cases hs : pySplit line with
  | nil =>
    rw [chatbotStep_nil env s line hs] at h
    exact absurd rfl h
  | cons c0 args =>
    rw [chatbotStep_eq env s line c0 args hs] at h ⊢
    rw [stepOfCmd_state] at h ⊢
    unfold applyCmd at h ⊢
    cases hcur : (dispatch env s (pyLower c0) args).newCur with
    | none =>
      rw [hcur] at h
      exact absurd rfl h
    | some n =>
      exact ⟨n, rfl, dispatch_newCur_some env s (pyLower c0) args n hcur⟩

lemma stepOfCmd_congr_noCache (s1 s2 : ChatState) (o1 o2 : CmdOut)
    (hw : s1.wallets = s2.wallets)
    (hcur : s1.current_wallet = s2.current_wallet)
    (hp : o1.prints = o2.prints) (hl : o1.logs = o2.logs)
    (hc : o1.calls = o2.calls) (hr : o1.res = o2.res)
    (hnw : o1.newWallets = o2.newWallets) (hnc : o1.newCur = o2.newCur) :
    (stepOfCmd s1 o1).prints = (stepOfCmd s2 o2).prints ∧
    (stepOfCmd s1 o1).logs = (stepOfCmd s2 o2).logs ∧
    (stepOfCmd s1 o1).calls = (stepOfCmd s2 o2).calls ∧
    (stepOfCmd s1 o1).cont = (stepOfCmd s2 o2).cont ∧
    (stepOfCmd s1 o1).state.wallets = (stepOfCmd s2 o2).state.wallets ∧
    (stepOfCmd s1 o1).state.current_wallet =
      (stepOfCmd s2 o2).state.current_wallet := by
  rcases o1 with ⟨nw1, nc1, nca1, pr1, lg1, cl1, res1⟩
  rcases o2 with ⟨nw2, nc2, nca2, pr2, lg2, cl2, res2⟩
  simp only at hp hl hc hr hnw hnc
  subst hp
  subst hl
  subst hc
  subst hr
  subst hnw
  subst hnc
  unfold stepOfCmd applyCmd
  cases res1 <;> simp [hw, hcur]

lemma chatbotStep_cache_indep (env : Env) (s1 s2 : ChatState) (line : String)
    (hw : s1.wallets = s2.wallets)
    (hcur : s1.current_wallet = s2.current_wallet) :
    (chatbotStep env s1 line).prints = (chatbotStep env s2 line).prints ∧
    (chatbotStep env s1 line).logs = (chatbotStep env s2 line).logs ∧
    (chatbotStep env s1 line).calls = (chatbotStep env s2 line).calls ∧
    (chatbotStep env s1 line).cont = (chatbotStep env s2 line).cont ∧
    (chatbotStep env s1 line).state.wallets =
      (chatbotStep env s2 line).state.wallets ∧
    (chatbotStep env s1 line).state.current_wallet =
      (chatbotStep env s2 line).state.current_wallet := by
  cases hs : pySplit line with
  | nil =>
    rw [chatbotStep_nil env s1 line hs, chatbotStep_nil env s2 line hs]
    exact ⟨rfl, rfl, rfl, rfl, hw, hcur⟩
  | cons c0 args =>
    rw [chatbotStep_eq env s1 line c0 args hs,
        chatbotStep_eq env s2 line c0 args hs]
    obtain ⟨hp, hl, hc, hr, hnw, hnc⟩ :=
      dispatch_cache_indep env (pyLower c0) args s1 s2 hw
    exact stepOfCmd_congr_noCache s1 s2 _ _ hw hcur hp hl hc hr hnw hnc

lemma chatbotRun_cache_indep (env : Env) (lines : List String) :
    ∀ s1 s2 : ChatState, s1.wallets = s2.wallets →
    s1.current_wallet = s2.current_wallet →
    (chatbotRun env s1 lines).prints = (chatbotRun env s2 lines).prints ∧
    (chatbotRun env s1 lines).logs = (chatbotRun env s2 lines).logs ∧
    (chatbotRun env s1 lines).calls = (chatbotRun env s2 lines).calls ∧
    (chatbotRun env s1 lines).exited = (chatbotRun env s2 lines).exited ∧
    (chatbotRun env s1 lines).state.wallets =
      (chatbotRun env s2 lines).state.wallets ∧
    (chatbotRun env s1 lines).state.current_wallet =
      (chatbotRun env s2 lines).state.current_wallet := by
  induction lines with
  | nil =>
    intro s1 s2 hw hcur
    exact ⟨rfl, rfl, rfl, rfl, hw, hcur⟩
  | cons line rest ih =>
    intro s1 s2 hw hcur
    obtain ⟨hp, hl, hc, hcont, hw2, hcur2⟩ :=
      chatbotStep_cache_indep env s1 s2 line hw hcur
    obtain ⟨ihp, ihl, ihc, ihe, ihw, ihcur⟩ :=
      ih (chatbotStep env s1 line).state (chatbotStep env s2 line).state
        hw2 hcur2
    unfold chatbotRun
    rw [hcont]
    cases hct : (chatbotStep env s2 line).cont <;>
      simp [hct, hp, hl, hc, ihp, ihl, ihc, ihe, ihw, ihcur, hw2, hcur2]

lemma stepOfCmd_congr_noCur (s1 s2 : ChatState) (o : CmdOut)
    (hw : s1.wallets = s2.wallets)
    (hca : s1.content_cache = s2.content_cache) :
    (stepOfCmd s1 o).prints = (stepOfCmd s2 o).prints ∧
    (stepOfCmd s1 o).logs = (stepOfCmd s2 o).logs ∧
    (stepOfCmd s1 o).calls = (stepOfCmd s2 o).calls ∧
    (stepOfCmd s1 o).cont = (stepOfCmd s2 o).cont ∧
    (stepOfCmd s1 o).state.wallets = (stepOfCmd s2 o).state.wallets ∧
    (stepOfCmd s1 o).state.content_cache =
      (stepOfCmd s2 o).state.content_cache := by
  rcases o with ⟨nw, nc, nca, pr, lg, cl, res⟩
  unfold stepOfCmd applyCmd
  cases res <;> simp [hw, hca]

lemma chatbotStep_cur_indep (env : Env) (s1 s2 : ChatState) (line : String)
    (hw : s1.wallets = s2.wallets)
    (hca : s1.content_cache = s2.content_cache) :
    (chatbotStep env s1 line).prints = (chatbotStep env s2 line).prints ∧
    (chatbotStep env s1 line).logs = (chatbotStep env s2 line).logs ∧
    (chatbotStep env s1 line).calls = (chatbotStep env s2 line).calls ∧
    (chatbotStep env s1 line).cont = (chatbotStep env s2 line).cont ∧
    (chatbotStep env s1 line).state.wallets =
      (chatbotStep env s2 line).state.wallets ∧
    (chatbotStep env s1 line).state.content_cache =
      (chatbotStep env s2 line).state.content_cache := by
  cases hs : pySplit line with
  | nil =>
    rw [chatbotStep_nil env s1 line hs, chatbotStep_nil env s2 line hs]
    exact ⟨rfl, rfl, rfl, rfl, hw, hca⟩
  | cons c0 args =>
    rw [chatbotStep_eq env s1 line c0 args hs,
        chatbotStep_eq env s2 line c0 args hs]
    rw [dispatch_state_indep env (pyLower c0) args s1 s2 hw hca]
    exact stepOfCmd_congr_noCur s1 s2 _ hw hca

lemma chatbotRun_cur_indep (env : Env) (lines : List String) :
    ∀ s1 s2 : ChatState, s1.wallets = s2.wallets →
    s1.content_cache = s2.content_cache →
    (chatbotRun env s1 lines).prints = (chatbotRun env s2 lines).prints ∧
    (chatbotRun env s1 lines).logs = (chatbotRun env s2 lines).logs ∧
    (chatbotRun env s1 lines).calls = (chatbotRun env s2 lines).calls ∧
    (chatbotRun env s1 lines).exited = (chatbotRun env s2 lines).exited ∧
    (chatbotRun env s1 lines).state.wallets =
      (chatbotRun env s2 lines).state.wallets ∧
    (chatbotRun env s1 lines).state.content_cache =
      (chatbotRun env s2 lines).state.content_cache := by
  induction lines with
  | nil =>
    intro s1 s2 hw hca
    exact ⟨rfl, rfl, rfl, rfl, hw, hca⟩
  | cons line rest ih =>
    intro s1 s2 hw hca
    obtain ⟨hp, hl, hc, hcont, hw2, hca2⟩ :=
      chatbotStep_cur_indep env s1 s2 line hw hca
    obtain ⟨ihp, ihl, ihc, ihe, ihw, ihca⟩ :=
      ih (chatbotStep env s1 line).state (chatbotStep env s2 line).state
        hw2 hca2
    unfold chatbotRun
    rw [hcont]
    cases hct : (chatbotStep env s2 line).cont <;>
      simp [hct, hp, hl, hc, ihp, ihl, ihc, ihe, ihw, ihca, hw2, hca2]

/-- C1: in a state where wallet w1 is connected (bound to keypair kp), if
the entered one-time code verifies, the recipient address is accepted by
the PublicKey constructor, and the chain client returns res for the
transfer, then the line send w1 addr amt (no token_address argument)
makes exactly one submit-transfer call, whose single instruction carries
amount amt lamports to recipient addr, and prints exactly the line
Transaction Result: followed by the value the chain client returned. -/
theorem send_submits_one_transfer (env : Env) (s : ChatState)
    (line c0 w1 addr amtStr : String) (amt : Int) (kp : Keypair)
    (res : String)
    (hs : pySplit line = [c0, w1, addr, amtStr])
    (hc : pyLower c0 = "send")
    (hw : pyDictGet w1 s.wallets = some kp)
    (hamt : pyInt amtStr = .ok amt)
    (h2fa : env.verify2fa env.input2fa = true)
    (haddr : env.validAddr addr = true)
    (hsend : env.send_transaction [Instr.transferSol kp.public_key addr amt]
      kp.public_key = .ok res) :
    chatbotStep env s line =
      ⟨s, ["Transaction Result: " ++ res],
       [(LogLevel.info, "Transaction sent: " ++ res)],
       [ExtCall.sendTransaction [Instr.transferSol kp.public_key addr amt]
         kp.public_key], true⟩ := by
  rw [chatbotStep_eq env s line c0 [w1, addr, amtStr] hs, hc]
  unfold dispatch
  rw [if_neg (by decide), if_neg (by decide), if_pos rfl]
  simp only [sendCmd, hamt, hw, sendTokenArg, send_solana_transaction,
    verify_2fa, h2fa, Bool.not_true, Bool.false_eq_true, if_false, haddr,
    hsend, stepOfCmd, pyStrOpt]
  rw [applyCmd_id s _ rfl rfl rfl]

/-- Witness for C1: in the stub environment, with w1 connected, the send
line submits exactly one transfer of 1000 lamports to RecipientAddr and
prints the canned chain response. -/
theorem send_submits_one_transfer_witness :
    pySplit "send w1 RecipientAddr 1000" =
      ["send", "w1", "RecipientAddr", "1000"] ∧
    pyDictGet "w1" [("w1", kpA)] = some kpA ∧
    chatbotStep stubEnv ⟨[("w1", kpA)], none, []⟩ "send w1 RecipientAddr 1000" =
      ⟨⟨[("w1", kpA)], none, []⟩, ["Transaction Result: sig123"],
       [(LogLevel.info, "Transaction sent: sig123")],
       [ExtCall.sendTransaction
         [Instr.transferSol "PUBKEYA" "RecipientAddr" 1000] "PUBKEYA"],
       true⟩ :=
  ⟨by decide, by decide,
   send_submits_one_transfer stubEnv ⟨[("w1", kpA)], none, []⟩
     "send w1 RecipientAddr 1000" "send" "w1" "RecipientAddr" "1000" 1000
     kpA "sig123" (by decide) (by decide) (by decide) (by decide)
     (by decide) (by decide) (by decide)⟩

/-- C2 counterexample: on the line send alice Addr abc (non-integer
amount), the loop does not print the send usage message; it prints the
int() ValueError converted by the top-level except clause, and makes no
network call.  The claim says a usage message is printed, which is false
here. -/
theorem send_bad_amount_cex :
    (chatbotStep stubEnv ⟨[("alice", kpA)], none, []⟩
        "send alice Addr abc").prints =
      ["Error: invalid literal for int() with base 10: \x27abc\x27"] ∧
    "Usage: send <wallet_name> <recipient_address> <amount> [token_address]" ∉
      (chatbotStep stubEnv ⟨[("alice", kpA)], none, []⟩
        "send alice Addr abc").prints ∧
    (chatbotStep stubEnv ⟨[("alice", kpA)], none, []⟩
        "send alice Addr abc").calls = [] ∧
    (chatbotStep stubEnv ⟨[("alice", kpA)], none, []⟩
        "send alice Addr abc").state =
      ⟨[("alice", kpA)], none, []⟩ :=
  ⟨by decide, by decide, by decide, by decide⟩

/-- C2 amended: a send line with at least three arguments whose amount is
not parseable as an integer is rejected before any network call; the
ValueError from int() is caught at the top of the loop and printed as an
Error line (not the usage message), the send handler is not invoked, the
state is unchanged, and control returns to the prompt. -/
theorem send_bad_amount_rejected (env : Env) (s : ChatState)
    (line c0 w a t m : String) (rest : List String)
    (hs : pySplit line = c0 :: w :: a :: t :: rest)
    (hc : pyLower c0 = "send")
    (ht : pyInt t = .error m) :
    chatbotStep env s line = ⟨s, ["Error: " ++ m], [], [], true⟩ := by
  rw [chatbotStep_eq env s line c0 (w :: a :: t :: rest) hs, hc]
  unfold dispatch
  rw [if_neg (by decide), if_neg (by decide), if_pos rfl]
  simp only [sendCmd, ht, raisedOut, stepOfCmd]
  rw [applyCmd_id s _ rfl rfl rfl]
  rfl

/-- Witness for the amended C2 at the concrete line send alice Addr abc. -/
theorem send_bad_amount_rejected_witness :
    pyInt "abc" =
      .error "invalid literal for int() with base 10: \x27abc\x27" ∧
    chatbotStep stubEnv ⟨[("alice", kpA)], none, []⟩ "send alice Addr abc" =
      ⟨⟨[("alice", kpA)], none, []⟩,
       ["Error: invalid literal for int() with base 10: \x27abc\x27"],
       [], [], true⟩ :=
  ⟨by decide,
   send_bad_amount_rejected stubEnv ⟨[("alice", kpA)], none, []⟩
     "send alice Addr abc" "send" "alice" "Addr" "abc"
     "invalid literal for int() with base 10: \x27abc\x27" []
     (by decide) (by decide) (by decide)⟩

/-- C3: a switch_wallet line naming a wallet absent from the registry
leaves the whole state (registry and active pointer) unchanged, prints
nothing, makes no call, and reports the failure as the not-found error
log, after which the loop continues. -/
theorem switch_absent_unchanged (env : Env) (s : ChatState)
    (line c0 name : String)
    (hs : pySplit line = [c0, name])
    (hc : pyLower c0 = "switch_wallet")
    (h : pyDictContains name s.wallets = false) :
    chatbotStep env s line =
      ⟨s, [],
       [(LogLevel.error, "Wallet \x27" ++ name ++ "\x27 not found.")],
       [], true⟩ := by
  rw [chatbotStep_eq env s line c0 [name] hs, hc]
  unfold dispatch
  rw [if_neg (by decide), if_pos rfl]
  simp only [switchCmd, switch_wallet, h, Bool.false_eq_true, if_false,
    stepOfCmd]
  rw [applyCmd_id s _ rfl rfl rfl]

/-- Witness for C3: switching to the never-connected wallet bob leaves
the state (including the already-set active pointer) unchanged. -/
theorem switch_absent_unchanged_witness :
    pyDictContains "bob" [("alice", kpA)] = false ∧
    chatbotStep stubEnv ⟨[("alice", kpA)], some "alice", []⟩
        "switch_wallet bob" =
      ⟨⟨[("alice", kpA)], some "alice", []⟩, [],
       [(LogLevel.error, "Wallet \x27bob\x27 not found.")], [], true⟩ :=
  ⟨by decide,
   switch_absent_unchanged stubEnv ⟨[("alice", kpA)], some "alice", []⟩
     "switch_wallet bob" "switch_wallet" "bob" (by decide) (by decide)
     (by decide)⟩

/-- C4: whenever the entered one-time code fails verification,
send_solana_transaction stops at the 2FA gate: it makes no external call
(nothing constructed, signed, or submitted), logs the invalid-code error,
and returns None. -/
theorem send_2fa_fail_no_network (env : Env) (kp : Keypair)
    (addr : String) (amt : Int) (tok : Option String) (dec : Int)
    (h : verify_2fa env env.input2fa = false) :
    send_solana_transaction env kp addr amt tok dec =
      ⟨[(LogLevel.error, "Invalid 2FA code.")], [], .ok none⟩ := by
  simp only [send_solana_transaction, h, Bool.not_false, if_true]

/-- Witness for C4: a stub environment that rejects every code makes the
send abort with no calls. -/
theorem send_2fa_fail_no_network_witness :
    verify_2fa { stubEnv with verify2fa := fun _ => false }
      { stubEnv with verify2fa := fun _ => false }.input2fa = false ∧
    send_solana_transaction { stubEnv with verify2fa := fun _ => false }
        kpA "RecipientAddr" 1000 none 9 =
      ⟨[(LogLevel.error, "Invalid 2FA code.")], [], .ok none⟩ :=
  ⟨rfl,
   send_2fa_fail_no_network { stubEnv with verify2fa := fun _ => false }
     kpA "RecipientAddr" 1000 none 9 rfl⟩

/-- C5: the loop iteration stops exactly on a line whose first token is
exit (case-insensitively), in which case it prints the farewell; any
handler error raised during the iteration is converted by the except
clause into an Error print appended to the branch output, and the loop
continues past that iteration. -/
theorem loop_errors_caught_exit_only (env : Env) (s : ChatState)
    (line : String) :
    ((chatbotStep env s line).cont = false ↔ isExitLine line = true) ∧
    (isExitLine line = true →
      (chatbotStep env s line).prints = ["Goodbye!"]) ∧
    (∀ c0 args m, pySplit line = c0 :: args →
      (dispatch env s (pyLower c0) args).res = DispatchRes.raised m →
      (chatbotStep env s line).prints =
        (dispatch env s (pyLower c0) args).prints ++ ["Error: " ++ m] ∧
      (chatbotStep env s line).cont = true) := by
  refine ⟨chatbotStep_cont_iff env s line, ?_, ?_⟩
  · intro hex
    unfold isExitLine at hex
    cases hs : pySplit line with
    | nil =>
      rw [hs] at hex
      cases hex
    | cons c0 args =>
      rw [hs] at hex
      have hc : pyLower c0 = "exit" := by simpa using hex
      rw [chatbotStep_exit env s line c0 args hs hc]
  · intro c0 args m hs hr
    rw [chatbotStep_eq env s line c0 args hs]
    exact stepOfCmd_raised s _ m hr

/-- Witness for C5: the exit line stops the loop with the farewell, and a
raising line (bad int literal) is converted to an Error print with the
loop continuing. -/
theorem loop_errors_caught_exit_only_witness :
    isExitLine "exit" = true ∧
    (chatbotStep stubEnv initialState "exit").prints = ["Goodbye!"] ∧
    (chatbotStep stubEnv ⟨[("alice", kpA)], none, []⟩
        "send alice Addr abc").prints =
      (dispatch stubEnv ⟨[("alice", kpA)], none, []⟩ "send"
          ["alice", "Addr", "abc"]).prints ++
        ["Error: invalid literal for int() with base 10: \x27abc\x27"] ∧
    (chatbotStep stubEnv ⟨[("alice", kpA)], none, []⟩
        "send alice Addr abc").cont = true :=
  ⟨by decide,
   (loop_errors_caught_exit_only stubEnv initialState "exit").2.1 (by decide),
   ((loop_errors_caught_exit_only stubEnv ⟨[("alice", kpA)], none, []⟩
       "send alice Addr abc").2.2 "send" ["alice", "Addr", "abc"]
       "invalid literal for int() with base 10: \x27abc\x27"
       (by decide) (by decide)).1,
   ((loop_errors_caught_exit_only stubEnv ⟨[("alice", kpA)], none, []⟩
       "send alice Addr abc").2.2 "send" ["alice", "Addr", "abc"]
       "invalid literal for int() with base 10: \x27abc\x27"
       (by decide) (by decide)).2⟩

/-- C6: connecting the same name twice with two valid keys leaves exactly
one registry entry for that name, bound to the keypair derived from the
second key, and registry keys remain unique (no name bound to two
credentials). -/
theorem connect_twice_last_wins (env : Env) (name k1 k2 : String)
    (kp1 kp2 : Keypair) (w : List (String × Keypair))
    (h1 : (env.b58decode k1).bind env.from_secret_key = .ok kp1)
    (h2 : (env.b58decode k2).bind env.from_secret_key = .ok kp2)
    (hnd : (w.map Prod.fst).Nodup) :
    ((connect_wallet env name k2
        (connect_wallet env name k1 w).wallets).wallets).filter
      (fun p => p.1 = name) = [(name, kp2)] ∧
    (((connect_wallet env name k2
        (connect_wallet env name k1 w).wallets).wallets).map
      Prod.fst).Nodup := by
  unfold connect_wallet
  rw [h1, h2]
  have hnd1 := pyDictInsert_nodupKeys name kp1 w hnd
  exact ⟨pyDictInsert_filter name kp2 _ hnd1,
         pyDictInsert_nodupKeys name kp2 _ hnd1⟩

/-- Witness for C6: connecting alice with key1 then key2 in the stub
environment leaves one entry for alice bound to the second keypair. -/
theorem connect_twice_last_wins_witness :
    (stubEnv.b58decode "key1").bind stubEnv.from_secret_key = .ok kpA ∧
    (stubEnv.b58decode "key2").bind stubEnv.from_secret_key = .ok kpB ∧
    ((connect_wallet stubEnv "alice" "key2"
        (connect_wallet stubEnv "alice" "key1" []).wallets).wallets).filter
      (fun p => p.1 = "alice") = [("alice", kpB)] :=
  ⟨by decide, by decide,
   (connect_twice_last_wins stubEnv "alice" "key1" "key2" kpA kpB []
     (by decide) (by decide) List.nodup_nil).1⟩

/-- C7: a line whose lowercased first token is none of the nine known
verbs prints the invalid-command message, leaves the whole state (wallet
registry and active pointer) unchanged, logs nothing, makes no call, and
the loop continues. -/
theorem unknown_command_no_change (env : Env) (s : ChatState)
    (line c0 : String) (args : List String)
    (hs : pySplit line = c0 :: args)
    (h : pyLower c0 ∉ knownCmds) :
    chatbotStep env s line =
      ⟨s, ["Invalid command. Type \x27help\x27 for a list of commands."],
       [], [], true⟩ := by
  rw [chatbotStep_eq env s line c0 args hs]
  have hd : dispatch env s (pyLower c0) args = invalidCmd := by
    unfold dispatch
    simp only [knownCmds, List.mem_cons, List.not_mem_nil, or_false,
      not_or] at h
    obtain ⟨n1, n2, n3, n4, n5, n6, n7, n8, n9⟩ := h
    rw [if_neg n1, if_neg n2, if_neg n3, if_neg n4, if_neg n5, if_neg n6,
        if_neg n7, if_neg n8, if_neg n9]
  rw [hd]
  unfold stepOfCmd invalidCmd
  rw [applyCmd_id s _ rfl rfl rfl]

/-- Witness for C7 on the unknown verb frobnicate. -/
theorem unknown_command_no_change_witness :
    pySplit "frobnicate x" = ["frobnicate", "x"] ∧
    chatbotStep stubEnv ⟨[("alice", kpA)], some "alice", []⟩
        "frobnicate x" =
      ⟨⟨[("alice", kpA)], some "alice", []⟩,
       ["Invalid command. Type \x27help\x27 for a list of commands."],
       [], [], true⟩ :=
  ⟨by decide,
   unknown_command_no_change stubEnv ⟨[("alice", kpA)], some "alice", []⟩
     "frobnicate x" "frobnicate" ["x"] (by decide) (by decide)⟩

/-- C8: whenever one loop iteration changes the active wallet pointer,
the new pointer names a wallet present in the registry of the state in
which the command ran: switch_wallet never sets the pointer to an absent
name, so a set pointer always referred to a registered name at the moment
it was set. -/
theorem pointer_only_set_to_present (env : Env) (s : ChatState)
    (line : String)
    (h : (chatbotStep env s line).state.current_wallet ≠
      s.current_wallet) :
    ∃ n, (chatbotStep env s line).state.current_wallet = some n ∧
      pyDictContains n s.wallets = true :=
  chatbotStep_current_change env s line h

/-- Witness for C8: switching to the connected wallet alice changes the
pointer, and the theorem yields a registered name. -/
theorem pointer_only_set_to_present_witness :
    (chatbotStep stubEnv ⟨[("alice", kpA)], none, []⟩
        "switch_wallet alice").state.current_wallet ≠
      (⟨[("alice", kpA)], none, []⟩ : ChatState).current_wallet ∧
    ∃ n, (chatbotStep stubEnv ⟨[("alice", kpA)], none, []⟩
        "switch_wallet alice").state.current_wallet = some n ∧
      pyDictContains n [("alice", kpA)] = true :=
  ⟨by decide,
   pointer_only_set_to_present stubEnv ⟨[("alice", kpA)], none, []⟩
     "switch_wallet alice" (by decide)⟩

/-- C9: generate_with_deepseek never consults the content cache: its
returned result and its API calls are the same whatever the cache holds,
even when the cache already holds that exact prompt; on success it writes
the fresh response under the prompt; and no command of the loop reads the
cache back: runs from states that differ only in the cache produce the
same prints and the same external calls. -/
theorem generation_cache_never_read (env : Env) :
    (∀ (prompt model : String) (mt : Int)
      (c1 c2 : List (String × String)),
      (generate_with_deepseek env prompt model mt c1).result =
        (generate_with_deepseek env prompt model mt c2).result ∧
      (generate_with_deepseek env prompt model mt c1).calls =
        (generate_with_deepseek env prompt model mt c2).calls) ∧
    (∀ (prompt model : String) (mt : Int) (c : List (String × String))
      (text : String),
      env.deepseek prompt model mt = .ok text →
      (generate_with_deepseek env prompt model mt c).cache =
        pyDictInsert prompt text c) ∧
    (∀ (s1 s2 : ChatState) (lines : List String),
      s1.wallets = s2.wallets → s1.current_wallet = s2.current_wallet →
      (chatbotRun env s1 lines).prints = (chatbotRun env s2 lines).prints ∧
      (chatbotRun env s1 lines).calls = (chatbotRun env s2 lines).calls) := by
  refine ⟨?_, ?_, ?_⟩
  · intro prompt model mt c1 c2
    have h := generate_indep env prompt model mt c1 c2
    exact ⟨h.1, h.2.2⟩
  · intro prompt model mt c text h
    exact (generate_ok_cache env prompt model mt c text h).1
  · intro s1 s2 lines hw hcur
    have h := chatbotRun_cache_indep env lines s1 s2 hw hcur
    exact ⟨h.1, h.2.2.1⟩

/-- Witness for C9: in the stub environment the cache write is the fresh
response even when the cache already held the prompt, and two runs whose
states differ only in the cache print the same output. -/
theorem generation_cache_never_read_witness :
    stubEnv.deepseek "p" "default" 100 = .ok "gen:p" ∧
    (generate_with_deepseek stubEnv "p" "default" 100
        [("p", "stale")]).cache =
      pyDictInsert "p" "gen:p" [("p", "stale")] ∧
    (chatbotRun stubEnv ⟨[], none, [("p", "stale")]⟩
        ["generate p", "exit"]).prints =
      (chatbotRun stubEnv ⟨[], none, []⟩ ["generate p", "exit"]).prints :=
  ⟨by decide,
   (generation_cache_never_read stubEnv).2.1 "p" "default" 100
     [("p", "stale")] "gen:p" (by decide),
   ((generation_cache_never_read stubEnv).2.2
     ⟨[], none, [("p", "stale")]⟩ ⟨[], none, []⟩
     ["generate p", "exit"] rfl rfl).1⟩

/-- C10: no command observes the active wallet pointer: two runs of the
loop on the same input lines from states that agree on the registry and
the cache (differing only in current_wallet) produce the same prints,
logs, external calls and exit behaviour, and end with the same registry
and cache; current_wallet is written by switch_wallet but read by no
handler. -/
theorem current_wallet_noninterference (env : Env) (s1 s2 : ChatState)
    (lines : List String) (hw : s1.wallets = s2.wallets)
    (hca : s1.content_cache = s2.content_cache) :
    (chatbotRun env s1 lines).prints = (chatbotRun env s2 lines).prints ∧
    (chatbotRun env s1 lines).logs = (chatbotRun env s2 lines).logs ∧
    (chatbotRun env s1 lines).calls = (chatbotRun env s2 lines).calls ∧
    (chatbotRun env s1 lines).exited = (chatbotRun env s2 lines).exited ∧
    (chatbotRun env s1 lines).state.wallets =
      (chatbotRun env s2 lines).state.wallets ∧
    (chatbotRun env s1 lines).state.content_cache =
      (chatbotRun env s2 lines).state.content_cache :=
  chatbotRun_cur_indep env lines s1 s2 hw hca

/-- Witness for C10: two runs differing only in the active pointer print
the same lines. -/
theorem current_wallet_noninterference_witness :
    (⟨[("alice", kpA)], none, []⟩ : ChatState).wallets =
      (⟨[("alice", kpA)], some "alice", []⟩ : ChatState).wallets ∧
    (chatbotRun stubEnv ⟨[("alice", kpA)], none, []⟩
        ["price", "nfts alice", "exit"]).prints =
      (chatbotRun stubEnv ⟨[("alice", kpA)], some "alice", []⟩
        ["price", "nfts alice", "exit"]).prints :=
  ⟨rfl,
   (current_wallet_noninterference stubEnv ⟨[("alice", kpA)], none, []⟩
     ⟨[("alice", kpA)], some "alice", []⟩
     ["price", "nfts alice", "exit"] rfl rfl).1⟩

end Porrima
